import Mathlib

/-!
Verification of the outbound chat-API client of the Tauri desktop shell
(`src/tauri-client/src-tauri/src/main.rs`): the data model (`ChatMessage`,
`ApiRequest`, `ApiResponse`), the serde-derived JSON encoding and decoding of
those shapes, and the two Tauri commands `send_chat_message` and
`test_endpoint`.  The network round trip is abstracted as a function from the
outbound request to an HTTP outcome; everything on either side of that round
trip is embedded directly from the Rust source.
-/

namespace EntraClient

/-- A JSON value, as produced and consumed by serde_json. -/
inductive Json where
  | null : Json
  | bool (b : Bool) : Json
  | num (n : Int) : Json
  | str (s : String) : Json
  | arr (elems : List Json) : Json
  | obj (fields : List (String × Json)) : Json

/-- `struct ChatMessage { role: String, content: String, timestamp: Option<String> }`
(main.rs lines 13-17). -/
structure ChatMessage where
  role : String
  content : String
  timestamp : Option String
deriving DecidableEq, Repr

/-- `struct ApiRequest { user_input: String, conversation_history: Vec<ChatMessage>,
user_guid: Option<String> }` (main.rs lines 20-24). -/
structure ApiRequest where
  user_input : String
  conversation_history : List ChatMessage
  user_guid : Option String
deriving DecidableEq, Repr

/-- `struct ApiResponse { assistant_response: String, voice_response: Option<String>,
agent_logs: Option<String>, user_guid: Option<String> }` (main.rs lines 27-32). -/
structure ApiResponse where
  assistant_response : String
  voice_response : Option String
  agent_logs : Option String
  user_guid : Option String
deriving DecidableEq, Repr

/-- serde serialization of `Option<String>`: `None` becomes JSON null,
`Some s` becomes a JSON string. -/
def encodeOptString : Option String → Json
  | none => .null
  | some s => .str s

/-- serde `Serialize` for `ChatMessage`: a JSON object with the three fields
in declaration order. -/
def ChatMessage.toJson (m : ChatMessage) : Json :=
  .obj [("role", .str m.role), ("content", .str m.content),
        ("timestamp", encodeOptString m.timestamp)]

/-- serde `Serialize` for `Vec<ChatMessage>`: a JSON array of the encoded
elements, in order. -/
def encodeMessages (ms : List ChatMessage) : Json :=
  .arr (ms.map ChatMessage.toJson)

/-- serde `Serialize` for `ApiRequest`: a JSON object with the three fields
in declaration order. -/
def encodeApiRequest (r : ApiRequest) : Json :=
  .obj [("user_input", .str r.user_input),
        ("conversation_history", encodeMessages r.conversation_history),
        ("user_guid", encodeOptString r.user_guid)]

/-- serde deserialization of `Option<String>`: null decodes to `None`, a JSON
string to `Some`, anything else is a type error. -/
def decodeOptString : Json → Except String (Option String)
  | .null => .ok none
  | .str s => .ok (some s)
  | _ => .error "invalid type: expected a string or null"

/-- Field loop of serde's derived `Deserialize` for `ChatMessage`: walk the
object's fields in order, accumulating each known field at most once
(duplicates are an error), ignoring unknown fields (serde's default), then
require `role` and `content`; a missing `timestamp` defaults to `None`. -/
def decodeChatMessageFields :
    List (String × Json) → Option String → Option String →
    Option (Option String) → Except String ChatMessage
  | [], roleAcc, contentAcc, tsAcc =>
    match roleAcc with
    | none => .error "missing field role"
    | some r =>
      match contentAcc with
      | none => .error "missing field content"
      | some c => .ok ⟨r, c, tsAcc.getD none⟩
  | (k, v) :: rest, roleAcc, contentAcc, tsAcc =>
    if k = "role" then
      match roleAcc with
      | some _ => .error "duplicate field role"
      | none =>
        match v with
        | .str s => decodeChatMessageFields rest (some s) contentAcc tsAcc
        | _ => .error "invalid type: expected a string"
    else if k = "content" then
      match contentAcc with
      | some _ => .error "duplicate field content"
      | none =>
        match v with
        | .str s => decodeChatMessageFields rest roleAcc (some s) tsAcc
        | _ => .error "invalid type: expected a string"
    else if k = "timestamp" then
      match tsAcc with
      | some _ => .error "duplicate field timestamp"
      | none =>
        match decodeOptString v with
        | .ok o => decodeChatMessageFields rest roleAcc contentAcc (some o)
        | .error e => .error e
    else
      decodeChatMessageFields rest roleAcc contentAcc tsAcc

/-- serde `Deserialize` for `ChatMessage`: only a JSON object is accepted. -/
def ChatMessage.fromJson : Json → Except String ChatMessage
  | .obj fields => decodeChatMessageFields fields none none none
  | _ => .error "invalid type: expected struct ChatMessage"

/-- serde `Deserialize` for a sequence of `ChatMessage`s: decode each element
in order, failing on the first element that fails. -/
def decodeMessageList : List Json → Except String (List ChatMessage)
  | [] => .ok []
  | j :: rest =>
    match ChatMessage.fromJson j with
    | .error e => .error e
    | .ok m =>
      match decodeMessageList rest with
      | .error e => .error e
      | .ok ms => .ok (m :: ms)

/-- serde `Deserialize` for `Vec<ChatMessage>`: only a JSON array is accepted. -/
def decodeMessages : Json → Except String (List ChatMessage)
  | .arr elems => decodeMessageList elems
  | _ => .error "invalid type: expected a sequence"

/-- Field loop of serde's derived `Deserialize` for `ApiResponse`, analogous to
`decodeChatMessageFields`: `assistant_response` is required, the three optional
fields default to `None` when absent. -/
def decodeApiResponseFields :
    List (String × Json) → Option String → Option (Option String) →
    Option (Option String) → Option (Option String) → Except String ApiResponse
  | [], arAcc, vrAcc, alAcc, ugAcc =>
    match arAcc with
    | none => .error "missing field assistant_response"
    | some ar => .ok ⟨ar, vrAcc.getD none, alAcc.getD none, ugAcc.getD none⟩
  | (k, v) :: rest, arAcc, vrAcc, alAcc, ugAcc =>
    if k = "assistant_response" then
      match arAcc with
      | some _ => .error "duplicate field assistant_response"
      | none =>
        match v with
        | .str s => decodeApiResponseFields rest (some s) vrAcc alAcc ugAcc
        | _ => .error "invalid type: expected a string"
    else if k = "voice_response" then
      match vrAcc with
      | some _ => .error "duplicate field voice_response"
      | none =>
        match decodeOptString v with
        | .ok o => decodeApiResponseFields rest arAcc (some o) alAcc ugAcc
        | .error e => .error e
    else if k = "agent_logs" then
      match alAcc with
      | some _ => .error "duplicate field agent_logs"
      | none =>
        match decodeOptString v with
        | .ok o => decodeApiResponseFields rest arAcc vrAcc (some o) ugAcc
        | .error e => .error e
    else if k = "user_guid" then
      match ugAcc with
      | some _ => .error "duplicate field user_guid"
      | none =>
        match decodeOptString v with
        | .ok o => decodeApiResponseFields rest arAcc vrAcc alAcc (some o)
        | .error e => .error e
    else
      decodeApiResponseFields rest arAcc vrAcc alAcc ugAcc

/-- serde `Deserialize` for `ApiResponse`: only a JSON object is accepted. -/
def decodeApiResponse : Json → Except String ApiResponse
  | .obj fields => decodeApiResponseFields fields none none none none
  | _ => .error "invalid type: expected struct ApiResponse"

/-- An outbound HTTP request as assembled by the client: URL, method, the
header list in the order the builder adds them, and the JSON body. -/
structure OutboundRequest where
  url : String
  method : String
  headers : List (String × String)
  body : Json

/-- `StatusCode::is_success` from the http crate used by reqwest:
true exactly for statuses 200 through 299. -/
def isSuccessStatus (status : Nat) : Bool :=
  200 ≤ status && status ≤ 299

/-- The numeric part of the `Display` rendering of an HTTP status used in
`format!("API error: HTTP {}", response.status())`.  (The http crate's
`Display` for `StatusCode` begins with this decimal code; the trailing
canonical reason phrase is immaterial to every claim and omitted.) -/
def statusDisplay (status : Nat) : String :=
  toString status

/-- Header construction of `send_chat_message` (main.rs lines 72-81): the
builder sets `Content-Type: application/json`, then, when `api_key` is
`Some(key)` with `!key.is_empty()`, also `x-functions-key: key`. -/
def requestHeaders (api_key : Option String) : List (String × String) :=
  let base := [("Content-Type", "application/json")]
  match api_key with
  | some key => if key.isEmpty then base else base ++ [("x-functions-key", key)]
  | none => base

/-- The outcome of one HTTP round trip, seen from the client after
`send().await`: either a transport failure with its cause description, or a
response carrying a status code and a body.  The body is kept as the result of
JSON-parsing the response text (`Except.error` = the body is not valid JSON,
with the parse-failure cause). -/
inductive HttpOutcome where
  | transportErr (cause : String) : HttpOutcome
  | response (status : Nat) (body : Except String Json) : HttpOutcome

/-- `response.json::<ApiResponse>()`: parse the body text as JSON, then
deserialize `ApiResponse`; either stage's failure is the error cause. -/
def apiResponseFromBody : Except String Json → Except String ApiResponse
  | .error e => .error e
  | .ok j => decodeApiResponse j

/-- The outbound request that `send_chat_message` builds (main.rs lines 64-81):
a POST to `endpoint_url` with the headers of `requestHeaders` and the
JSON-encoded `ApiRequest` assembled from the remaining inputs. -/
def send_chat_message_request (endpoint_url : String) (api_key : Option String)
    (user_input : String) (conversation_history : List ChatMessage)
    (user_guid : Option String) : OutboundRequest :=
  { url := endpoint_url
    method := "POST"
    headers := requestHeaders api_key
    body := encodeApiRequest ⟨user_input, conversation_history, user_guid⟩ }

/-- `send_chat_message` (main.rs lines 56-96).  The network round trip is the
parameter `net`, mapping the built request to its `HttpOutcome`.  A transport
failure becomes `Network error: {e}`; a non-success status becomes
`API error: HTTP {status}`; otherwise the body is decoded as `ApiResponse`,
a failure becoming `Failed to parse response: {e}`. -/
def send_chat_message (endpoint_url : String) (api_key : Option String)
    (user_input : String) (conversation_history : List ChatMessage)
    (user_guid : Option String) (net : OutboundRequest → HttpOutcome) :
    Except String ApiResponse :=
  match net (send_chat_message_request endpoint_url api_key user_input
      conversation_history user_guid) with
  | .transportErr e => .error ("Network error: " ++ e)
  | .response status body =>
    if !isSuccessStatus status then
      .error ("API error: HTTP " ++ statusDisplay status)
    else
      match apiResponseFromBody body with
      | .ok r => .ok r
      | .error e => .error ("Failed to parse response: " ++ e)

/-- The fixed placeholder payload of `test_endpoint` (main.rs lines 106-110):
`user_input = "ping"`, empty history, no user_guid. -/
def test_endpoint_request : ApiRequest :=
  { user_input := "ping", conversation_history := [], user_guid := none }

/-- Header construction of `test_endpoint` (main.rs lines 112-121), embedded
separately from `requestHeaders` because the source repeats the code. -/
def test_endpoint_headers (api_key : Option String) : List (String × String) :=
  let base := [("Content-Type", "application/json")]
  match api_key with
  | some key => if key.isEmpty then base else base ++ [("x-functions-key", key)]
  | none => base

/-- The outbound request that `test_endpoint` builds (main.rs lines 106-121). -/
def test_endpoint_outbound (endpoint_url : String) (api_key : Option String) :
    OutboundRequest :=
  { url := endpoint_url
    method := "POST"
    headers := test_endpoint_headers api_key
    body := encodeApiRequest test_endpoint_request }

/-- `test_endpoint` (main.rs lines 100-125), with the network round trip as
the parameter `net`.  A transport failure is returned as `Err(e.to_string())`;
a response yields `Ok(status.is_success())` and the body is never read.
(The client-builder step `.build()` cannot fail for this configuration and is
modelled as succeeding.) -/
def test_endpoint (endpoint_url : String) (api_key : Option String)
    (net : OutboundRequest → HttpOutcome) : Except String Bool :=
  match net (test_endpoint_outbound endpoint_url api_key) with
  | .transportErr e => .error e
  | .response status _ => .ok (isSuccessStatus status)

/-- The request timeout `send_chat_message`'s client is configured with:
`reqwest::Client::new()` (main.rs line 64) sets none. -/
def send_chat_message_timeout : Option Nat :=
  none

/-- The request timeout `test_endpoint`'s client is configured with:
`Client::builder().timeout(Duration::from_secs(5))` (main.rs lines 101-104). -/
def test_endpoint_timeout : Option Nat :=
  some 5

/-- Modelled from the spec: the timeout semantics of the HTTP layer (reqwest),
which is outside this repository.  A request against a client configured with
timeout `t` seconds while the server delays `d` seconds is aborted with a
transport (timeout) error exactly when a timeout is configured and the delay
exceeds it; with no configured timeout the request is never aborted and may
block indefinitely. -/
def timesOut : Option Nat → Nat → Bool
  | some t, d => t < d
  | none, _ => false

/-- A list of zero or one JSON object fields: the encoding of an optional
field that is either absent or present with a string value. -/
def optField (name : String) : Option String → List (String × Json)
  | none => []
  | some s => [(name, .str s)]

/-! ## Helper lemmas -/

theorem parseErr_ne_networkErr (e c : String) :
    "Failed to parse response: " ++ e ≠ "Network error: " ++ c := by
  intro h
  have h2 : ('F' : Char) = 'N' := congrArg (fun s => s.get 0) h
  exact absurd h2 (by decide)

theorem apiErr_ne_parseErr (x e : String) :
    "API error: HTTP " ++ x ≠ "Failed to parse response: " ++ e := by
  intro h
  have h2 : ('A' : Char) = 'F' := congrArg (fun s => s.get 0) h
  exact absurd h2 (by decide)

theorem ChatMessage.fromJson_toJson (m : ChatMessage) :
    ChatMessage.fromJson m.toJson = .ok m := by
  cases m with
  | mk r c t => cases t <;> rfl

theorem decodeMessageList_map_toJson (ms : List ChatMessage) :
    decodeMessageList (ms.map ChatMessage.toJson) = .ok ms := by
  induction ms with
  | nil => rfl
  | cons m rest ih =>
    simp [decodeMessageList, ChatMessage.fromJson_toJson, ih]

/-! ## Claim theorems -/

/-- C1: whenever the network returns a response whose status is in the success
range 200-299 and whose body decodes as an `ApiResponse`, `send_chat_message`
returns `Ok` with exactly the decoded value. -/
theorem sendMessage_success_returns_decoded
    (url : String) (key : Option String) (u : String) (hist : List ChatMessage)
    (guid : Option String) (net : OutboundRequest → HttpOutcome)
    (status : Nat) (body : Except String Json) (r : ApiResponse)
    (hnet : net (send_chat_message_request url key u hist guid) =
      .response status body)
    (hlo : 200 ≤ status) (hhi : status ≤ 299)
    (hdec : apiResponseFromBody body = .ok r) :
    send_chat_message url key u hist guid net = .ok r := by
  have hs : isSuccessStatus status = true := by
    simp [isSuccessStatus, hlo, hhi]
  simp [send_chat_message, hnet, hs, hdec]

/-- C1 witness: a mock network returning HTTP 200 with a well-formed body
yields the decoded `ApiResponse`. -/
theorem sendMessage_success_returns_decoded_witness :
    send_chat_message "http://e" (some "k") "hi" [] none
        (fun _ => .response 200
          (.ok (.obj [("assistant_response", .str "hello"),
                      ("voice_response", .str "v")]))) =
      .ok ⟨"hello", some "v", none, none⟩ :=
  sendMessage_success_returns_decoded "http://e" (some "k") "hi" [] none _
    200 _ ⟨"hello", some "v", none, none⟩ rfl (by decide) (by decide) rfl

/-- C2: whenever the network returns a response whose status is outside
200-299, `send_chat_message` returns exactly the API-status error string
carrying the numeric code, regardless of the body; it returns neither a
decoded response nor a parse error. -/
theorem sendMessage_non_success_api_error
    (url : String) (key : Option String) (u : String) (hist : List ChatMessage)
    (guid : Option String) (net : OutboundRequest → HttpOutcome)
    (status : Nat) (body : Except String Json)
    (hnet : net (send_chat_message_request url key u hist guid) =
      .response status body)
    (hs : status < 200 ∨ 299 < status) :
    send_chat_message url key u hist guid net =
        .error ("API error: HTTP " ++ statusDisplay status) ∧
      (∀ r, send_chat_message url key u hist guid net ≠ .ok r) ∧
      (∀ e, send_chat_message url key u hist guid net ≠
        .error ("Failed to parse response: " ++ e)) := by
  have hfail : isSuccessStatus status = false := by
    simp [isSuccessStatus]
    omega
  have hmain : send_chat_message url key u hist guid net =
      .error ("API error: HTTP " ++ statusDisplay status) := by
    simp [send_chat_message, hnet, hfail]
  refine ⟨hmain, fun r hr => ?_, fun e he => ?_⟩
  · rw [hmain] at hr
    exact Except.noConfusion hr
  · rw [hmain] at he
    exact apiErr_ne_parseErr (statusDisplay status) e (Except.error.inj he)

/-- C2 witness: a mock network returning HTTP 500 yields the API-status error
containing 500, even with a decodable body. -/
theorem sendMessage_non_success_api_error_witness :
    send_chat_message "http://e" none "m" [] none
        (fun _ => .response 500 (.ok (.obj [("assistant_response", .str "x")]))) =
      .error ("API error: HTTP " ++ statusDisplay 500) :=
  (sendMessage_non_success_api_error "http://e" none "m" [] none _ 500 _
    rfl (Or.inr (by decide))).1

/-- C3: whenever the network returns a success-status response whose body
fails to parse or decode as an `ApiResponse` with cause `e`,
`send_chat_message` returns exactly the parse-error string carrying `e`, and
that string is distinct from every transport-error string and every
API-status-error string the operation can produce. -/
theorem sendMessage_decode_failure_parse_error
    (url : String) (key : Option String) (u : String) (hist : List ChatMessage)
    (guid : Option String) (net : OutboundRequest → HttpOutcome)
    (status : Nat) (body : Except String Json) (e : String)
    (hnet : net (send_chat_message_request url key u hist guid) =
      .response status body)
    (hlo : 200 ≤ status) (hhi : status ≤ 299)
    (hdec : apiResponseFromBody body = .error e) :
    send_chat_message url key u hist guid net =
        .error ("Failed to parse response: " ++ e) ∧
      (∀ c, "Failed to parse response: " ++ e ≠ "Network error: " ++ c) ∧
      (∀ s, "Failed to parse response: " ++ e ≠
        "API error: HTTP " ++ statusDisplay s) := by
  have hs : isSuccessStatus status = true := by
    simp [isSuccessStatus, hlo, hhi]
  refine ⟨by simp [send_chat_message, hnet, hs, hdec], ?_, ?_⟩
  · exact fun c => parseErr_ne_networkErr e c
  · exact fun s h => apiErr_ne_parseErr (statusDisplay s) e h.symm

/-- C3 witness: a mock network returning HTTP 200 with a body that lacks the
required field yields a parse error with the schema-failure cause. -/
theorem sendMessage_decode_failure_parse_error_witness :
    send_chat_message "http://e" none "m" [] none
        (fun _ => .response 200 (.ok (.obj []))) =
      .error ("Failed to parse response: " ++ "missing field assistant_response") :=
  (sendMessage_decode_failure_parse_error "http://e" none "m" [] none _ 200
    (.ok (.obj [])) "missing field assistant_response" rfl (by decide) (by decide)
    rfl).1

/-- C4: for every invocation of `send_chat_message`, a present non-empty
`api_key` is attached as the `x-functions-key` header; with `None` or the
empty string the header list is exactly the `Content-Type` header alone, so
`x-functions-key` is absent; `Content-Type: application/json` is always set. -/
theorem sendMessage_api_key_header
    (url u : String) (hist : List ChatMessage) (guid : Option String) :
    (∀ k, k ≠ "" →
      (send_chat_message_request url (some k) u hist guid).headers =
        [("Content-Type", "application/json"), ("x-functions-key", k)]) ∧
      (send_chat_message_request url none u hist guid).headers =
        [("Content-Type", "application/json")] ∧
      (send_chat_message_request url (some "") u hist guid).headers =
        [("Content-Type", "application/json")] ∧
      (∀ key, ("Content-Type", "application/json") ∈
        (send_chat_message_request url key u hist guid).headers) := by
  refine ⟨fun k hk => ?_, rfl, rfl, fun key => ?_⟩
  · have hne : k.isEmpty = false := by
      by_contra hc
      have hkt : k.isEmpty = true := by simpa using hc
      exact hk ((String.isEmpty_iff k).mp hkt)
    simp [send_chat_message_request, requestHeaders, hne]
  · match key with
    | none => exact List.mem_singleton.mpr rfl
    | some k =>
      by_cases hk : k.isEmpty <;>
        simp [send_chat_message_request, requestHeaders, hk]

/-- C4 witness: `api_key = Some "secret"` attaches `x-functions-key: secret`,
while `None` leaves only the `Content-Type` header. -/
theorem sendMessage_api_key_header_witness :
    (send_chat_message_request "u" (some "secret") "m" [] none).headers =
        [("Content-Type", "application/json"), ("x-functions-key", "secret")] ∧
      (send_chat_message_request "u" none "m" [] none).headers =
        [("Content-Type", "application/json")] :=
  ⟨(sendMessage_api_key_header "u" "m" [] none).1 "secret" (by decide),
   (sendMessage_api_key_header "u" "m" [] none).2.1⟩

/-- C5: when the network returns a response, `test_endpoint` returns `Ok` of
the boolean that is true exactly for statuses 200-299 (never the parsed body,
whose content it ignores); a transport failure is returned as `Err` with the
cause, which is distinct from every `Ok` value including `Ok false`. -/
theorem testEndpoint_status_and_transport
    (url : String) (key : Option String) (net : OutboundRequest → HttpOutcome) :
    (∀ status body, net (test_endpoint_outbound url key) = .response status body →
        test_endpoint url key net = .ok (isSuccessStatus status) ∧
        (test_endpoint url key net = .ok true ↔ 200 ≤ status ∧ status ≤ 299)) ∧
      (∀ e, net (test_endpoint_outbound url key) = .transportErr e →
        test_endpoint url key net = .error e ∧
        ∀ b, (Except.error e : Except String Bool) ≠ .ok b) := by
  constructor
  · intro status body hnet
    have hmain : test_endpoint url key net = .ok (isSuccessStatus status) := by
      simp [test_endpoint, hnet]
    refine ⟨hmain, ?_⟩
    rw [hmain]
    simp [isSuccessStatus]
  · intro e hnet
    exact ⟨by simp [test_endpoint, hnet], fun b => Except.noConfusion⟩

/-- C5 witness: HTTP 200 yields `Ok true`, HTTP 404 yields `Ok false` (no
error), and a transport failure yields `Err` with the cause. -/
theorem testEndpoint_status_and_transport_witness :
    test_endpoint "u" none (fun _ => .response 200 (.ok .null)) = .ok true ∧
      test_endpoint "u" none (fun _ => .response 404 (.ok .null)) = .ok false ∧
      test_endpoint "u" none (fun _ => .transportErr "timed out") =
        .error "timed out" := by
  refine ⟨?_, ?_, ?_⟩
  · exact ((testEndpoint_status_and_transport "u" none
      (fun _ => .response 200 (.ok .null))).1 200 (.ok .null) rfl).1
  · exact ((testEndpoint_status_and_transport "u" none
      (fun _ => .response 404 (.ok .null))).1 404 (.ok .null) rfl).1
  · exact ((testEndpoint_status_and_transport "u" none
      (fun _ => .transportErr "timed out")).2 "timed out" rfl).1

/-- C6: the body `test_endpoint` sends is the JSON encoding of the fixed
placeholder `ApiRequest` with `user_input = "ping"`, empty history and no
user_guid — the same `ApiRequest` encoding `send_chat_message` would send for
those inputs. -/
theorem testEndpoint_ping_payload (url : String) (key : Option String) :
    test_endpoint_request =
        { user_input := "ping", conversation_history := [], user_guid := none } ∧
      (test_endpoint_outbound url key).body =
        encodeApiRequest
          { user_input := "ping", conversation_history := [], user_guid := none } ∧
      (test_endpoint_outbound url key).body =
        (send_chat_message_request url key "ping" [] none).body :=
  ⟨rfl, rfl, rfl⟩

/-- C7: `test_endpoint` configures its client with a 5-second timeout while
`send_chat_message` configures none; under the modelled timeout semantics a
server delay beyond 5 seconds aborts `test_endpoint`'s request with a timeout
(transport) error, while no delay ever aborts `send_chat_message`'s. -/
theorem timeout_asymmetry :
    test_endpoint_timeout = some 5 ∧
      send_chat_message_timeout = none ∧
      (∀ d, 5 < d → timesOut test_endpoint_timeout d = true) ∧
      (∀ d, timesOut send_chat_message_timeout d = false) := by
  refine ⟨rfl, rfl, fun d hd => ?_, fun d => rfl⟩
  simpa [test_endpoint_timeout, timesOut] using hd

/-- C7 witness: a 10-second server delay exceeds `test_endpoint`'s bound and
times out, while `send_chat_message` never times out. -/
theorem timeout_asymmetry_witness :
    timesOut test_endpoint_timeout 10 = true ∧
      timesOut send_chat_message_timeout 10 = false :=
  ⟨timeout_asymmetry.2.2.1 10 (by decide), timeout_asymmetry.2.2.2 10⟩

/-- C8: for every sequence of `ChatMessage` values, JSON-encoding the sequence
and decoding the result round-trips to an equal sequence. -/
theorem chatMessage_sequence_roundtrip (ms : List ChatMessage) :
    decodeMessages (encodeMessages ms) = .ok ms := by
  simpa [encodeMessages, decodeMessages] using decodeMessageList_map_toJson ms

/-- C9: a JSON response body containing the required `assistant_response`
string field decodes successfully for every combination of present or absent
optional fields; each absent optional field decodes to `none` rather than
raising a decode error. -/
theorem apiResponse_optional_fields_default (s : String)
    (v a g : Option String) :
    decodeApiResponse (.obj ([("assistant_response", .str s)] ++
        optField "voice_response" v ++ optField "agent_logs" a ++
        optField "user_guid" g)) =
      .ok ⟨s, v, a, g⟩ := by
  cases v <;> cases a <;> cases g <;> rfl

/-- C10: `test_endpoint` applies exactly the same API-key header rule as
`send_chat_message` — the header lists of the two outbound requests coincide
for every `api_key`, with a non-empty key attached as `x-functions-key` and a
`None` or empty key leaving only the `Content-Type` header. -/
theorem header_rule_equivalence (url u : String) (hist : List ChatMessage)
    (guid : Option String) :
    (∀ key, (test_endpoint_outbound url key).headers =
        (send_chat_message_request url key u hist guid).headers) ∧
      (∀ k, k ≠ "" → (test_endpoint_outbound url (some k)).headers =
        [("Content-Type", "application/json"), ("x-functions-key", k)]) ∧
      (test_endpoint_outbound url none).headers =
        [("Content-Type", "application/json")] ∧
      (test_endpoint_outbound url (some "")).headers =
        [("Content-Type", "application/json")] := by
  refine ⟨fun key => ?_, fun k hk => ?_, rfl, rfl⟩
  · match key with
    | none => rfl
    | some k => rfl
  · have hne : k.isEmpty = false := by
      by_contra hc
      have hkt : k.isEmpty = true := by simpa using hc
      exact hk ((String.isEmpty_iff k).mp hkt)
    simp [test_endpoint_outbound, test_endpoint_headers, hne]

/-- C10 witness: the header lists of the two operations coincide at
`Some "secret"`, and a non-empty key is attached by `test_endpoint`. -/
theorem header_rule_equivalence_witness :
    (test_endpoint_outbound "u" (some "secret")).headers =
        (send_chat_message_request "u" (some "secret") "m" [] none).headers ∧
      (test_endpoint_outbound "u" (some "secret")).headers =
        [("Content-Type", "application/json"), ("x-functions-key", "secret")] :=
  ⟨(header_rule_equivalence "u" "m" [] none).1 (some "secret"),
   (header_rule_equivalence "u" "m" [] none).2.1 "secret" (by decide)⟩

end EntraClient
